import Mathlib

/-!
Shallow embedding of the progress-aggregation engine of the repository
(`downloader/progress.py` and the `_on_progress` callback of
`downloader/core.py`).

Modelling conventions:
* Python values that flow through the progress dictionaries are embedded as
  the inductive type `PyVal` (None, bool, int, float, str); Python floats are
  modelled as exact rationals `ℚ` (every arithmetic operation the code
  performs on them — add, divide by a nonzero value, multiply, min/max — is
  exact on the decimal inputs involved, so no rounding behaviour is lost for
  the quantities the theorems speak about).
* Python dicts are association lists `PyDict` looked up by first occurrence;
  the code never builds a dict literal with a repeated key, so this agrees
  with Python's last-write-wins semantics on every dict the code constructs.
* Python code that can raise is embedded in `Except String`; the error
  string stands for the exception message.
* `float(...)` applied to a string is modelled by `pyFloatOfStr`, covering
  sign, integer and fractional decimal literals with surrounding ASCII
  whitespace; exponent forms, `inf`/`nan` and underscore separators are not
  representable in the `ℚ` value model and are never produced by the percent
  strings this code parses, so they are mapped to a parse failure.
-/

inductive PyVal where
  | none : PyVal
  | bool (b : Bool) : PyVal
  | int (n : ℤ) : PyVal
  | float (q : ℚ) : PyVal
  | str (s : String) : PyVal
deriving DecidableEq

/-- Association-list model of a Python dict (insertion order, unique keys). -/
abbrev PyDict : Type := List (String × PyVal)

/-- Lookup by key, first occurrence (`d.get(key)` returning `None` is
`dictGet` returning `Option.none`). -/
def dictGet : PyDict → String → Option PyVal
  | [], _ => Option.none
  | (k, v) :: rest, key => if k = key then some v else dictGet rest key

/-- Python `d.get(key, default)`. -/
def dictGetD (d : PyDict) (key : String) (dflt : PyVal) : PyVal :=
  (dictGet d key).getD dflt

/-- Python `key in d`. -/
def dictHasKey (d : PyDict) (key : String) : Bool :=
  (dictGet d key).isSome

/-- Python `d[key] = v` on an existing dict (replaces in place, appends when
absent, preserving insertion order). -/
def dictSet : PyDict → String → PyVal → PyDict
  | [], k, v => [(k, v)]
  | (k1, v1) :: rest, k, v =>
      if k1 = k then (k, v) :: rest else (k1, v1) :: dictSet rest k v

/-- Numeric view of a Python value (bool is an int subtype in Python). -/
def pyNum : PyVal → Option ℚ
  | .bool b => some (if b then 1 else 0)
  | .int n => some (n : ℚ)
  | .float q => some q
  | _ => Option.none

/-- Python `==` restricted to the value shapes the code compares: numbers
compare by numeric value, strings by content, `None` only to `None`, and
numeric/non-numeric comparisons are `False` (never an error). -/
def pyEq (a b : PyVal) : Bool :=
  match pyNum a, pyNum b with
  | some x, some y => x == y
  | _, _ =>
      match a, b with
      | .str s, .str t => s == t
      | .none, .none => true
      | _, _ => false

/-- Python truthiness, used by the `or` defaulting idiom in `_on_progress`. -/
def pyTruthy : PyVal → Bool
  | .none => false
  | .bool b => b
  | .int n => n ≠ 0
  | .float q => q ≠ 0
  | .str s => s ≠ ""

/-- Python `a or b`. -/
def pyOr (a b : PyVal) : PyVal :=
  if pyTruthy a then a else b

/-- ASCII whitespace stripped by Python's numeric string conversions. -/
def isSpaceChar (c : Char) : Bool :=
  c == ' ' || c == '\t' || c == '\n' || c == '\r'

/-- Strip surrounding whitespace from a character list. -/
def trimChars (l : List Char) : List Char :=
  ((l.dropWhile isSpaceChar).reverse.dropWhile isSpaceChar).reverse

/-- Numeric value of a digit run (most significant first). -/
def digitsVal (l : List Char) : ℕ :=
  l.foldl (fun a c => a * 10 + (c.toNat - 48)) 0

/-- Unsigned decimal literal: digits, optionally followed by a point and more
digits; at least one digit overall (`float('5.')`, `float('.5')` succeed,
`float('.')`, `float('')` fail). -/
def parseUnsigned (l : List Char) : Option ℚ :=
  let intPart := l.takeWhile Char.isDigit
  let rest := l.dropWhile Char.isDigit
  match rest with
  | [] => if intPart.isEmpty then Option.none else some (digitsVal intPart : ℚ)
  | '.' :: frac =>
      if frac.all Char.isDigit ∧ (intPart ≠ [] ∨ frac ≠ []) then
        some ((digitsVal intPart : ℚ) + (digitsVal frac : ℚ) / (10 ^ frac.length))
      else Option.none
  | _ => Option.none

/-- Python `float(s)` on a string, over the finite decimal literals the ℚ
model represents. -/
def pyFloatOfStr (s : String) : Option ℚ :=
  match trimChars s.toList with
  | '+' :: rest => parseUnsigned rest
  | '-' :: rest => (parseUnsigned rest).map (fun q => -q)
  | l => parseUnsigned l

/-- Python `s.strip(chr)` for the percent sign: removes every leading and
trailing `'%'` character. -/
def stripPct (s : String) : String :=
  String.mk (((s.toList.dropWhile (fun c => c == '%')).reverse.dropWhile
    (fun c => c == '%')).reverse)

/-- Integer literal accepted by Python `int(s)`: optional sign, digits only
(`int('12.5')` raises). -/
def pyIntOfStr (s : String) : Option ℤ :=
  match trimChars s.toList with
  | '+' :: rest =>
      if rest ≠ [] ∧ rest.all Char.isDigit then some (digitsVal rest : ℤ) else Option.none
  | '-' :: rest =>
      if rest ≠ [] ∧ rest.all Char.isDigit then some (-(digitsVal rest : ℤ)) else Option.none
  | l => if l ≠ [] ∧ l.all Char.isDigit then some (digitsVal l : ℤ) else Option.none

/-- Python's `str(...)` on the embedded values. The repr of a non-integral
float (shortest round-trip decimal) is not modelled exactly; no percent
string the code converts is a non-integral float. -/
def pyStr : PyVal → String
  | .none => "None"
  | .bool true => "True"
  | .bool false => "False"
  | .int n => toString n
  | .float q => if q.den = 1 then toString q.num ++ ".0" else toString q
  | .str s => s

/-- Python's builtin `int(...)` coercion: ints pass through, bools map to
0/1, floats truncate toward zero, strings must be integer literals, `None`
raises `TypeError`. -/
def pyInt : PyVal → Except String ℤ
  | .int n => .ok n
  | .bool b => .ok (if b then 1 else 0)
  | .float q => .ok (if 0 ≤ q then ⌊q⌋ else ⌈q⌉)
  | .str s =>
      match pyIntOfStr s with
      | some n => .ok n
      | Option.none => .error "ValueError: invalid literal for int() with base 10"
  | .none => .error "TypeError: int() argument must not be None"

/-- Numeric coercion performed implicitly by `>` and `/` between a dict value
and a number; non-numeric operands raise `TypeError`. -/
def pyAsNum (v : PyVal) : Except String ℚ :=
  match pyNum v with
  | some q => .ok q
  | Option.none => .error "TypeError: unsupported operand type"

/-- The `ProgressState` dataclass of `progress.py`. -/
structure ProgressState where
  current_index : ℤ := 1
  total_songs : ℤ := 0
  is_playlist_mode : Bool := false
  playlist_name : String := ""
  completed_songs : ℤ := 0
deriving DecidableEq

/-- `ProgressCalculator.reset_state` / `__init__`: the cleared state. -/
def reset_state : ProgressState := {}

/-- `ProgressCalculator.set_playlist_info` (the spec's `declare_collection`). -/
def set_playlist_info (total_songs : ℤ) (playlist_name : String) : ProgressState :=
  { current_index := 1
    total_songs := total_songs
    is_playlist_mode := true
    playlist_name := playlist_name
    completed_songs := 0 }

/-- `ProgressCalculator._calculate_file_percent`. The Python evaluation order
is kept: the `total_bytes > 0` comparison coerces `total_bytes` first, and
`downloaded_bytes` is only coerced when that guard is taken. -/
def calculate_file_percent (progress_data : PyDict)
    (downloaded_bytes total_bytes : PyVal) : Except String ℚ :=
  let percent_str := stripPct (pyStr (dictGetD progress_data "_percent_str" (.str "0%")))
  match pyFloatOfStr percent_str with
  | some v => .ok (min 100 (max 0 v))
  | Option.none =>
      match pyAsNum total_bytes with
      | .error e => .error e
      | .ok t =>
          if 0 < t then
            match pyAsNum downloaded_bytes with
            | .error e => .error e
            | .ok dl => .ok (min 100 (max 0 (dl / t * 100)))
          else
            .ok 0

/-- `ProgressCalculator._calculate_playlist_progress`. -/
def calculate_playlist_progress (s : ProgressState) (file_percent : ℚ) : ℚ :=
  if s.is_playlist_mode = false ∨ s.total_songs = 0 then 0
  else min 100 (max 0 ((s.completed_songs + file_percent / 100) / (s.total_songs : ℚ) * 100))

/-- The four fields produced by `_handle_finished_status` and by the
non-finished branch of `calculate_progress`, before the raw pass-through
fields are merged in. -/
structure FinRes where
  status : PyVal
  file_percent : ℚ
  playlist_percent : ℚ
  percentage : ℚ
deriving DecidableEq

/-- `ProgressCalculator._handle_finished_status`: returns the progress fields
and the (possibly mutated) state. -/
def handle_finished_status (s : ProgressState) : FinRes × ProgressState :=
  if s.is_playlist_mode = false then
    (⟨.str "finished", 100, 100, 100⟩, s)
  else if s.completed_songs < s.total_songs - 1 then
    let s2 : ProgressState :=
      { s with completed_songs := s.completed_songs + 1
               current_index := s.current_index + 1 }
    (⟨.str "downloading", 100, calculate_playlist_progress s2 100,
      calculate_playlist_progress s2 100⟩, s2)
  else
    (⟨.str "finished", 100, 100, 100⟩, s)

/-- `ProgressCalculator.get_playlist_info`. -/
def get_playlist_info (s : ProgressState) : PyDict :=
  if s.is_playlist_mode = false then []
  else
    [("playlist_index", .int s.current_index),
     ("playlist_count", .int s.total_songs),
     ("playlist_name", .str s.playlist_name),
     ("isPlaylist", .bool true)]

/-- The `result` dict literal assembled by `calculate_progress`: the four
progress fields spread first, then the raw pass-through fields. -/
def build_result (progress_data : PyDict) (res : FinRes) : PyDict :=
  [("status", res.status),
   ("file_percent", .float res.file_percent),
   ("playlist_percent", .float res.playlist_percent),
   ("percentage", .float res.percentage),
   ("downloaded_bytes", dictGetD progress_data "downloaded_bytes" (.int 0)),
   ("total_bytes", dictGetD progress_data "total_bytes" (.int 0)),
   ("speed", dictGetD progress_data "speed" (.int 0)),
   ("eta", dictGetD progress_data "eta" (.int 0)),
   ("filename", dictGetD progress_data "filename" (.str "")),
   ("currentFile", dictGetD progress_data "filename" (.str "")),
   ("_percent_str", dictGetD progress_data "_percent_str" (.str "")),
   ("_speed_str", dictGetD progress_data "_speed_str" (.str "")),
   ("_eta_str", dictGetD progress_data "_eta_str" (.str ""))]

/-- `ProgressCalculator.calculate_progress`: consumes the event dict, returns
the outward result dict and the new state; `Except` carries any Python
exception (only the implicit numeric coercions inside
`_calculate_file_percent` can raise, and they raise before any state
mutation). -/
def calculate_progress (s : ProgressState) (progress_data : PyDict) :
    Except String (PyDict × ProgressState) :=
  let status := dictGetD progress_data "status" (.str "ready")
  match calculate_file_percent progress_data
      (dictGetD progress_data "downloaded_bytes" (.int 0))
      (dictGetD progress_data "total_bytes" (.int 0)) with
  | .error e => .error e
  | .ok file_percent =>
      let ps :=
        if pyEq status (.str "finished") then
          handle_finished_status s
        else
          (⟨status, file_percent, calculate_playlist_progress s file_percent,
            if s.is_playlist_mode then calculate_playlist_progress s file_percent
            else file_percent⟩, s)
      let result2 :=
        if ps.2.is_playlist_mode then
          build_result progress_data ps.1 ++ get_playlist_info ps.2
        else
          build_result progress_data ps.1
      .ok (result2, ps.2)

/-- State after one `calculate_progress` call: an exception leaves the state
unchanged (every raising operation precedes the mutation point). -/
def calculate_progress_state (s : ProgressState) (d : PyDict) : ProgressState :=
  match calculate_progress s d with
  | .ok r => r.2
  | .error _ => s

/-- Outward dict of one `calculate_progress` call (empty on exception). -/
def progress_event_dict (s : ProgressState) (d : PyDict) : PyDict :=
  match calculate_progress s d with
  | .ok r => r.1
  | .error _ => []

/-- One field of the outward event of a `calculate_progress` call. -/
def progress_event_field (s : ProgressState) (d : PyDict) (key : String) : PyVal :=
  dictGetD (progress_event_dict s d) key PyVal.none

/-- The collection-level percentage of the outward event. -/
def progress_event_percent (s : ProgressState) (d : PyDict) : ℚ :=
  match progress_event_field s d "playlist_percent" with
  | .float q => q
  | _ => 0

/-- A bare finished event, as delivered one per completed item. -/
def finished_event : PyDict := [("status", PyVal.str "finished")]

/-- Session trajectory: state after `declare_collection(n, name)` followed by
`k` finished events. -/
def session_state (n : ℤ) (name : String) : ℕ → ProgressState
  | 0 => set_playlist_info n name
  | k + 1 => calculate_progress_state (session_state n name k) finished_event

/-- State after two consecutive finished events on a fresh `n`-item
collection. -/
def double_finish_state (n : ℤ) (name : String) : ProgressState :=
  session_state n name 2

/-- The `progress_data` dict assembled by `core.py:_on_progress` before it is
handed to `calculate_progress`, with the `int(...)`/`or` coercions and the
finished-status rewrite; `Except` carries the Python exception. -/
def build_progress_data (d : PyDict) : Except String PyDict :=
  let status := dictGetD d "status" (.str "")
  match pyInt (pyOr (dictGetD d "downloaded_bytes" (.int 0)) (.int 0)) with
  | .error e => .error e
  | .ok dl =>
      match pyInt (pyOr (pyOr (dictGetD d "total_bytes" PyVal.none)
          (dictGetD d "total_bytes_estimate" PyVal.none)) (.int 0)) with
      | .error e => .error e
      | .ok tb =>
          let pd : PyDict :=
            [("status", status),
             ("downloaded_bytes", .int dl),
             ("total_bytes", .int tb),
             ("speed", dictGetD d "speed" (.int 0)),
             ("eta", dictGetD d "eta" (.int 0)),
             ("filename", dictGetD d "filename" (.str "")),
             ("_percent_str", dictGetD d "_percent_str" (.str "0%")),
             ("_speed_str", dictGetD d "_speed_str" (.str "0 B/s")),
             ("_eta_str", dictGetD d "_eta_str" (.str "--:--")),
             ("playlist_index", dictGetD d "playlist_index" PyVal.none),
             ("playlist_count", dictGetD d "playlist_count" PyVal.none),
             ("playlist_name", dictGetD d "playlist_name" PyVal.none)]
          if pyEq status (.str "finished") then
            .ok (dictSet (dictSet pd "downloaded_bytes" (.int tb))
              "_percent_str" (.str "100%"))
          else
            .ok pd

/-- The fallible body of `_on_progress` up to the callback invocation. -/
def on_progress_raw (s : ProgressState) (d : PyDict) :
    Except String (PyDict × ProgressState) :=
  match build_progress_data d with
  | .error e => .error e
  | .ok pd => calculate_progress s pd

/-- `core.py:_on_progress` with a callback present: the event actually
delivered to the callback and the resulting state. The surrounding
`try/except` turns any exception into a synthetic error event and leaves the
state untouched. -/
def on_progress (s : ProgressState) (d : PyDict) : PyDict × ProgressState :=
  match on_progress_raw s d with
  | .ok r => r
  | .error msg => ([("status", .str "error"), ("message", .str msg)], s)

/-!
Helper lemmas shared by the claim theorems.
-/

theorem state_finished_event (s : ProgressState) :
    calculate_progress_state s finished_event = (handle_finished_status s).2 := rfl

theorem status_finished_event (s : ProgressState) :
    progress_event_field s finished_event "status" = (handle_finished_status s).1.status := by
  unfold progress_event_field progress_event_dict
  cases hb : (handle_finished_status s).2.is_playlist_mode <;>
    simp [calculate_progress, calculate_file_percent, pyEq, pyNum, hb, dictGetD, dictGet,
      get_playlist_info, finished_event, pyStr, stripPct, pyFloatOfStr, trimChars,
      isSpaceChar, parseUnsigned, digitsVal, pyAsNum, build_result]

theorem percent_finished_event (s : ProgressState) :
    progress_event_percent s finished_event = (handle_finished_status s).1.playlist_percent := by
  unfold progress_event_percent progress_event_field progress_event_dict
  cases hb : (handle_finished_status s).2.is_playlist_mode <;>
    simp [calculate_progress, calculate_file_percent, pyEq, pyNum, hb, dictGetD, dictGet,
      get_playlist_info, finished_event, pyStr, stripPct, pyFloatOfStr, trimChars,
      isSpaceChar, parseUnsigned, digitsVal, pyAsNum, build_result]

theorem handle_finished_state_eq (ci ts cs : ℤ) (name : String) :
    (handle_finished_status ⟨ci, ts, true, name, cs⟩).2 =
      if cs < ts - 1 then ⟨ci + 1, ts, true, name, cs + 1⟩
      else ⟨ci, ts, true, name, cs⟩ := by
  unfold handle_finished_status
  simp only [Bool.true_eq_false, if_false]
  split_ifs <;> rfl

theorem handle_finished_res_eq (ci ts cs : ℤ) (name : String) :
    (handle_finished_status ⟨ci, ts, true, name, cs⟩).1 =
      if cs < ts - 1 then
        ⟨.str "downloading", 100,
          calculate_playlist_progress ⟨ci + 1, ts, true, name, cs + 1⟩ 100,
          calculate_playlist_progress ⟨ci + 1, ts, true, name, cs + 1⟩ 100⟩
      else ⟨.str "finished", 100, 100, 100⟩ := by
  unfold handle_finished_status
  simp only [Bool.true_eq_false, if_false]
  split_ifs <;> rfl

theorem handle_finished_preserves_mode (s : ProgressState) :
    (handle_finished_status s).2.is_playlist_mode = s.is_playlist_mode := by
  unfold handle_finished_status
  split_ifs <;> rfl

theorem session_state_closed (n : ℤ) (name : String) (hn : 1 ≤ n) :
    ∀ k : ℕ, session_state n name k =
      { current_index := 1 + min (k : ℤ) (n - 1)
        total_songs := n
        is_playlist_mode := true
        playlist_name := name
        completed_songs := min (k : ℤ) (n - 1) } := by
  intro k
  induction k with
  | zero =>
      simp only [session_state, set_playlist_info, Nat.cast_zero, ProgressState.mk.injEq]
      refine ⟨by omega, trivial, trivial, trivial, by omega⟩
  | succ k ih =>
      show calculate_progress_state (session_state n name k) finished_event = _
      rw [state_finished_event, ih, handle_finished_state_eq]
      split_ifs with h2 <;>
        · simp only [ProgressState.mk.injEq, Nat.cast_succ]
          refine ⟨by omega, trivial, trivial, trivial, by omega⟩

theorem playlist_progress_eq (ci ts cs : ℤ) (name : String) (hts : ts ≠ 0) (fp : ℚ) :
    calculate_playlist_progress ⟨ci, ts, true, name, cs⟩ fp =
      min 100 (max 0 (((cs : ℚ) + fp / 100) / (ts : ℚ) * 100)) := by
  unfold calculate_playlist_progress
  simp [hts]

theorem percent_formula (c n : ℤ) (h0 : 0 ≤ c) (hc : c + 1 ≤ n) (hn : 0 < n) :
    min 100 (max 0 (((c : ℚ) + 100 / 100) / (n : ℚ) * 100)) = ((c : ℚ) + 1) / (n : ℚ) * 100 := by
  have hn2 : (0 : ℚ) < (n : ℚ) := by exact_mod_cast hn
  have hnum : (0 : ℚ) ≤ (c : ℚ) + 1 := by
    have : (0 : ℚ) ≤ (c : ℚ) := by exact_mod_cast h0
    linarith
  have hle : ((c : ℚ) + 1) / (n : ℚ) ≤ 1 := by
    rw [div_le_one hn2]
    exact_mod_cast hc
  have h100 : (100 : ℚ) / 100 = 1 := by norm_num
  rw [h100]
  have hmax : max 0 (((c : ℚ) + 1) / (n : ℚ) * 100) = ((c : ℚ) + 1) / (n : ℚ) * 100 := by
    apply max_eq_right
    positivity
  rw [hmax]
  apply min_eq_right
  calc ((c : ℚ) + 1) / (n : ℚ) * 100 ≤ 1 * 100 := by
        apply mul_le_mul_of_nonneg_right hle (by norm_num)
    _ = 100 := by norm_num

theorem clamp_eq_of_bounds (x : ℚ) (h0 : 0 ≤ x) (h1 : x ≤ 100) :
    min 100 (max 0 x) = x := by
  rw [max_eq_right h0]
  exact min_eq_right h1

theorem frame_of_not_finished (s : ProgressState) (d : PyDict)
    (hs : pyEq (dictGetD d "status" (PyVal.str "ready")) (PyVal.str "finished") = false) :
    calculate_progress_state s d = s := by
  unfold calculate_progress_state calculate_progress
  cases hf : calculate_file_percent d (dictGetD d "downloaded_bytes" (.int 0))
      (dictGetD d "total_bytes" (.int 0)) with
  | error e => simp [hf]
  | ok fp => simp [hf, hs]

theorem frame_of_not_playlist (s : ProgressState) (d : PyDict)
    (hm : s.is_playlist_mode = false) :
    calculate_progress_state s d = s := by
  unfold calculate_progress_state calculate_progress
  cases hf : calculate_file_percent d (dictGetD d "downloaded_bytes" (.int 0))
      (dictGetD d "total_bytes" (.int 0)) with
  | error e => simp [hf]
  | ok fp =>
      cases hfin : pyEq (dictGetD d "status" (PyVal.str "ready")) (PyVal.str "finished") with
      | false => simp [hf, hfin]
      | true => simp [hf, hfin, handle_finished_status, hm]

theorem calc_progress_ok_form (s : ProgressState) (d : PyDict) (r : PyDict)
    (s2 : ProgressState) (h : calculate_progress s d = .ok (r, s2)) :
    ∃ res : FinRes,
      s2.is_playlist_mode = s.is_playlist_mode ∧
      r = (if s2.is_playlist_mode then build_result d res ++ get_playlist_info s2
           else build_result d res) := by
  unfold calculate_progress at h
  cases hf : calculate_file_percent d (dictGetD d "downloaded_bytes" (.int 0))
      (dictGetD d "total_bytes" (.int 0)) with
  | error e => rw [hf] at h; exact absurd h (by simp)
  | ok fp =>
      rw [hf] at h
      cases hfin : pyEq (dictGetD d "status" (PyVal.str "ready")) (PyVal.str "finished") with
      | true =>
          simp only [hfin, if_true, Except.ok.injEq, Prod.mk.injEq] at h
          obtain ⟨hr, hs2⟩ := h
          subst hs2
          exact ⟨(handle_finished_status s).1, handle_finished_preserves_mode s, hr.symm⟩
      | false =>
          simp only [hfin, Bool.false_eq_true, if_false, Except.ok.injEq, Prod.mk.injEq] at h
          obtain ⟨hr, hs2⟩ := h
          subst hs2
          exact ⟨⟨dictGetD d "status" (PyVal.str "ready"), fp,
            calculate_playlist_progress s fp,
            if s.is_playlist_mode then calculate_playlist_progress s fp else fp⟩,
            rfl, hr.symm⟩

theorem calc_progress_ok_form_not_finished (s : ProgressState) (d : PyDict) (r : PyDict)
    (s2 : ProgressState)
    (hs : pyEq (dictGetD d "status" (PyVal.str "ready")) (PyVal.str "finished") = false)
    (h : calculate_progress s d = .ok (r, s2)) :
    ∃ fp : ℚ, s2 = s ∧
      r = (if s.is_playlist_mode then
             build_result d ⟨dictGetD d "status" (PyVal.str "ready"), fp,
               calculate_playlist_progress s fp,
               if s.is_playlist_mode then calculate_playlist_progress s fp else fp⟩
               ++ get_playlist_info s
           else
             build_result d ⟨dictGetD d "status" (PyVal.str "ready"), fp,
               calculate_playlist_progress s fp,
               if s.is_playlist_mode then calculate_playlist_progress s fp else fp⟩) := by
  unfold calculate_progress at h
  cases hf : calculate_file_percent d (dictGetD d "downloaded_bytes" (.int 0))
      (dictGetD d "total_bytes" (.int 0)) with
  | error e => rw [hf] at h; exact absurd h (by simp)
  | ok fp =>
      rw [hf] at h
      simp only [hs, Bool.false_eq_true, if_false, Except.ok.injEq, Prod.mk.injEq] at h
      obtain ⟨hr, hs2⟩ := h
      subst hs2
      exact ⟨fp, rfl, hr.symm⟩

/-!
Claim theorems.
-/

/-- Claim C1, counterexample: in a 3-item collection, two consecutive
finished events for the first item increment `completed_songs` from 0 to 2,
not to 1 — `_handle_finished_status` has no per-item idempotence guard. -/
theorem duplicate_finished_increments_twice :
    (double_finish_state 3 "MyList").completed_songs = 2 ∧
      ¬ (double_finish_state 3 "MyList").completed_songs = 1 := by
  have h : double_finish_state 3 "MyList" = ⟨3, 3, true, "MyList", 2⟩ := rfl
  rw [h]
  exact ⟨rfl, by decide⟩

/-- Claim C1 (amended): for a fresh collection of N ≥ 2 items, two
consecutive finished events increment `completed_songs` by `min 2 (N - 1)`
in total: the only guard is that `completed_songs` never passes
`total_songs - 1`, so for N ≥ 3 a single duplicate finished signal counts
twice — the aggregator is not idempotent. -/
theorem duplicate_finished_min_increment (n : ℤ) (name : String) (hn : 2 ≤ n) :
    (double_finish_state n name).completed_songs = min 2 (n - 1) := by
  unfold double_finish_state
  rw [session_state_closed n name (by omega) 2]
  show min ((2 : ℕ) : ℤ) (n - 1) = min 2 (n - 1)
  norm_num

/-- Witness for the amended C1 at N = 4. -/
theorem duplicate_finished_min_increment_witness :
    (2 : ℤ) ≤ 4 ∧ (double_finish_state 4 "W").completed_songs = min 2 (4 - 1) :=
  ⟨by decide, duplicate_finished_min_increment 4 "W" (by decide)⟩

/-- Event of Scenario C and of the byte-ratio fallback: a malformed percent
string with a valid byte pair. -/
def scenario_c_event : PyDict :=
  [("status", PyVal.str "downloading"), ("_percent_str", PyVal.str "N/A%"),
   ("downloaded_bytes", PyVal.int 25), ("total_bytes", PyVal.int 100)]

/-- Event with byte counts but no percentage string at all. -/
def no_percent_event : PyDict :=
  [("status", PyVal.str "downloading"), ("downloaded_bytes", PyVal.int 50),
   ("total_bytes", PyVal.int 100)]

/-- Claim C2, counterexample: an event with downloaded = 50, total = 100 and
no percentage string yields file_percent 0, not the byte ratio 50 — the
absent string defaults to the parsable placeholder "0%", so the byte-ratio
fallback is never reached. -/
theorem absent_percent_string_gives_zero :
    calculate_file_percent no_percent_event (PyVal.int 50) (PyVal.int 100) = .ok 0 ∧
      ¬ calculate_file_percent no_percent_event (PyVal.int 50) (PyVal.int 100)
          = .ok (((50 : ℤ) : ℚ) / ((100 : ℤ) : ℚ) * 100) := by
  have h : calculate_file_percent no_percent_event (PyVal.int 50) (PyVal.int 100)
      = .ok 0 := rfl
  refine ⟨h, ?_⟩
  rw [h]
  intro hc
  simp only [Except.ok.injEq] at hc
  push_cast at hc
  norm_num at hc

/-- Claim C2 (amended): the byte-ratio fallback `100 * downloaded / total`
applies exactly when the (stripped) percentage string fails to parse as a
float; for such events with 0 ≤ downloaded ≤ total and total > 0 the
computed file percent is the exact ratio. An absent percentage string is not
such an event: it defaults to "0%" and yields 0. -/
theorem byte_ratio_fallback (d : PyDict) (dl tb : ℤ)
    (hp : pyFloatOfStr (stripPct (pyStr (dictGetD d "_percent_str" (PyVal.str "0%"))))
       = Option.none)
    (htb : 0 < tb) (h0 : 0 ≤ dl) (hdl : dl ≤ tb) :
    calculate_file_percent d (PyVal.int dl) (PyVal.int tb)
      = .ok ((dl : ℚ) / (tb : ℚ) * 100) := by
  have htbq : (0 : ℚ) < (tb : ℚ) := by exact_mod_cast htb
  have hdlq : (0 : ℚ) ≤ (dl : ℚ) := by exact_mod_cast h0
  have hx0 : (0 : ℚ) ≤ (dl : ℚ) / (tb : ℚ) * 100 :=
    mul_nonneg (div_nonneg hdlq (le_of_lt htbq)) (by norm_num)
  have hx1 : (dl : ℚ) / (tb : ℚ) * 100 ≤ 100 := by
    have hr : (dl : ℚ) / (tb : ℚ) ≤ 1 := by
      rw [div_le_one htbq]
      exact_mod_cast hdl
    calc (dl : ℚ) / (tb : ℚ) * 100 ≤ 1 * 100 :=
          mul_le_mul_of_nonneg_right hr (by norm_num)
      _ = 100 := one_mul 100
  simp only [calculate_file_percent, hp, pyAsNum, pyNum]
  rw [if_pos htbq]
  rw [clamp_eq_of_bounds _ hx0 hx1]

/-- Witness for the amended C2 at the Scenario C input. -/
theorem byte_ratio_fallback_witness :
    pyFloatOfStr (stripPct (pyStr (dictGetD scenario_c_event "_percent_str"
        (PyVal.str "0%")))) = Option.none ∧
    (0 : ℤ) < 100 ∧ (0 : ℤ) ≤ 25 ∧ (25 : ℤ) ≤ 100 ∧
    calculate_file_percent scenario_c_event (PyVal.int 25) (PyVal.int 100)
      = .ok (((25 : ℤ) : ℚ) / ((100 : ℤ) : ℚ) * 100) :=
  ⟨rfl, by decide, by decide, by decide,
    byte_ratio_fallback scenario_c_event 25 100 rfl (by decide) (by decide) (by decide)⟩

/-- Claim C8: a raw event with percent string "N/A%" and bytes 25/100 yields
file_percent exactly 25 — the unparsable string is not an exception and does
not return 0, the byte ratio is used, both in `_calculate_file_percent` and
through the full `calculate_progress` pipeline. -/
theorem malformed_percent_falls_back :
    calculate_file_percent scenario_c_event (PyVal.int 25) (PyVal.int 100) = .ok 25 ∧
      progress_event_field reset_state scenario_c_event "file_percent" = PyVal.float 25 := by
  have hv : min (100 : ℚ) (max 0 (((25 : ℤ) : ℚ) / (((100 : ℤ) : ℚ)) * 100)) = 25 := by
    push_cast
    norm_num [min_def, max_def]
  constructor
  · have h : calculate_file_percent scenario_c_event (PyVal.int 25) (PyVal.int 100)
        = .ok (min 100 (max 0 (((25 : ℤ) : ℚ) / (((100 : ℤ) : ℚ)) * 100))) := rfl
    rw [h, hv]
  · have h2 : progress_event_field reset_state scenario_c_event "file_percent"
        = PyVal.float (min 100 (max 0 (((25 : ℤ) : ℚ) / (((100 : ℤ) : ℚ)) * 100))) := rfl
    rw [h2, hv]

/-- Claim C9: an event whose status is not "finished" leaves the
ProgressState unchanged, and outside collection mode no event at all mutates
the state — only a finished event in collection mode does. -/
theorem non_finished_frame (s : ProgressState) (d : PyDict) :
    (pyEq (dictGetD d "status" (PyVal.str "ready")) (PyVal.str "finished") = false →
      calculate_progress_state s d = s) ∧
    (s.is_playlist_mode = false → calculate_progress_state s d = s) :=
  ⟨frame_of_not_finished s d, frame_of_not_playlist s d⟩

/-- Witness for C9 on a concrete downloading event. -/
theorem non_finished_frame_witness :
    pyEq (dictGetD [("status", PyVal.str "downloading")] "status" (PyVal.str "ready"))
        (PyVal.str "finished") = false ∧
    calculate_progress_state reset_state [("status", PyVal.str "downloading")]
      = reset_state :=
  ⟨by decide,
    (non_finished_frame reset_state [("status", PyVal.str "downloading")]).1 (by decide)⟩

/-- Claim C10: when the event dict has no "status" key, `calculate_progress`
substitutes the default "ready", treats the event as non-finished (the state
is unchanged), and propagates "ready" as the outward event's status. -/
theorem default_status_ready (s : ProgressState) (d : PyDict)
    (hkey : dictGet d "status" = Option.none) :
    dictGetD d "status" (PyVal.str "ready") = PyVal.str "ready" ∧
    calculate_progress_state s d = s ∧
    ∀ r s2, calculate_progress s d = .ok (r, s2) →
      dictGetD r "status" PyVal.none = PyVal.str "ready" := by
  have hd : dictGetD d "status" (PyVal.str "ready") = PyVal.str "ready" := by
    unfold dictGetD
    rw [hkey]
    rfl
  have hne : pyEq (dictGetD d "status" (PyVal.str "ready")) (PyVal.str "finished")
      = false := by
    rw [hd]
    rfl
  refine ⟨hd, frame_of_not_finished s d hne, ?_⟩
  intro r s2 h
  obtain ⟨fp, hs2, hr⟩ := calc_progress_ok_form_not_finished s d r s2 hne h
  subst hr
  cases hm : s.is_playlist_mode <;>
    simp [hm, build_result, dictGetD, dictGet, hkey]

/-- Witness for C10 on the empty event dict. -/
theorem default_status_ready_witness :
    dictGet ([] : PyDict) "status" = Option.none ∧
    (dictGetD ([] : PyDict) "status" (PyVal.str "ready") = PyVal.str "ready" ∧
     calculate_progress_state reset_state [] = reset_state ∧
     ∀ r s2, calculate_progress reset_state [] = .ok (r, s2) →
       dictGetD r "status" PyVal.none = PyVal.str "ready") :=
  ⟨rfl, default_status_ready reset_state [] rfl⟩

/-- Claim C6: the `_on_progress` callback never propagates an exception:
for every input dict it delivers exactly the assembled event when assembly
succeeds, and otherwise a fallback event with status "error" and a message
field describing the failure, leaving the state untouched. -/
theorem on_progress_never_raises (s : ProgressState) (d : PyDict) :
    (∃ r, on_progress_raw s d = .ok r ∧ on_progress s d = r) ∨
    (∃ msg, on_progress_raw s d = .error msg ∧
      on_progress s d =
        ([("status", PyVal.str "error"), ("message", PyVal.str msg)], s)) := by
  cases h : on_progress_raw s d with
  | ok r =>
      refine Or.inl ⟨r, rfl, ?_⟩
      unfold on_progress
      rw [h]
  | error msg =>
      refine Or.inr ⟨msg, rfl, ?_⟩
      unfold on_progress
      rw [h]

/-- State after the first finished event of Scenario B. -/
def scenario_b_state1 : ProgressState :=
  calculate_progress_state (set_playlist_info 3 "MyList") finished_event

/-- State after the second finished event of Scenario B. -/
def scenario_b_state2 : ProgressState :=
  calculate_progress_state scenario_b_state1 finished_event

theorem scenario_b_first_percent :
    progress_event_percent (set_playlist_info 3 "MyList") finished_event = 200 / 3 := by
  rw [percent_finished_event]
  have hs : set_playlist_info 3 "MyList" = (⟨1, 3, true, "MyList", 0⟩ : ProgressState) := rfl
  rw [hs, handle_finished_res_eq, if_pos (by norm_num : (0 : ℤ) < 3 - 1)]
  show calculate_playlist_progress ⟨1 + 1, 3, true, "MyList", 0 + 1⟩ 100 = 200 / 3
  rw [playlist_progress_eq _ _ _ _ (by norm_num)]
  push_cast
  rw [clamp_eq_of_bounds _ (by norm_num) (by norm_num)]
  norm_num

theorem scenario_b_second_percent :
    progress_event_percent scenario_b_state1 finished_event = 100 := by
  rw [percent_finished_event]
  have hs : scenario_b_state1 = (⟨2, 3, true, "MyList", 1⟩ : ProgressState) := rfl
  rw [hs, handle_finished_res_eq, if_pos (by norm_num : (1 : ℤ) < 3 - 1)]
  show calculate_playlist_progress ⟨2 + 1, 3, true, "MyList", 1 + 1⟩ 100 = 100
  rw [playlist_progress_eq _ _ _ _ (by norm_num)]
  push_cast
  rw [clamp_eq_of_bounds _ (by norm_num) (by norm_num)]
  norm_num

theorem scenario_b_third_percent :
    progress_event_percent scenario_b_state2 finished_event = 100 := by
  rw [percent_finished_event]
  have hs : scenario_b_state2 = (⟨3, 3, true, "MyList", 2⟩ : ProgressState) := rfl
  rw [hs, handle_finished_res_eq, if_neg (by norm_num : ¬ (2 : ℤ) < 3 - 1)]

/-- Claim C3, counterexample: the first finished event of the 3-item
collection reports collection percent exactly 200/3 ≈ 66.67, not a value
within 1 of 100/3 ≈ 33.33 — the completed counter is incremented before the
fraction is computed, with the current item counted as fully done. -/
theorem scenario_b_first_event_not_one_third :
    progress_event_percent (set_playlist_info 3 "MyList") finished_event = 200 / 3 ∧
      ¬ |progress_event_percent (set_playlist_info 3 "MyList") finished_event - 100 / 3| ≤ 1 := by
  refine ⟨scenario_b_first_percent, ?_⟩
  rw [scenario_b_first_percent]
  rw [abs_of_nonneg (by norm_num)]
  norm_num

/-- Claim C3 (amended): in a 3-item collection, the first finished event
yields collection percent exactly 200/3 ≈ 66.67 with status downgraded to
"downloading", the second yields exactly 100 still with status
"downloading", and the third yields 100 with status "finished". -/
theorem scenario_b_trajectory :
    progress_event_field (set_playlist_info 3 "MyList") finished_event "status"
        = PyVal.str "downloading" ∧
    progress_event_percent (set_playlist_info 3 "MyList") finished_event = 200 / 3 ∧
    progress_event_field scenario_b_state1 finished_event "status"
        = PyVal.str "downloading" ∧
    progress_event_percent scenario_b_state1 finished_event = 100 ∧
    progress_event_field scenario_b_state2 finished_event "status"
        = PyVal.str "finished" ∧
    progress_event_percent scenario_b_state2 finished_event = 100 :=
  ⟨rfl, scenario_b_first_percent, rfl, scenario_b_second_percent, rfl,
    scenario_b_third_percent⟩

/-- Claim C4: after `declare_collection(N, name)` with N ≥ 1 followed by N
sequential finished events, the N-th event reports collection percent
exactly 100 with status "finished"; each earlier finished event (the k-th,
acting on the state after k prior finished events, k < N - 1 remaining)
reports status "downloading" with collection percent (k + 2)/N * 100, and
those percents are strictly increasing. -/
theorem collection_completion_law (n : ℤ) (name : String) (hn : 1 ≤ n) :
    (progress_event_field (session_state n name (n - 1).toNat) finished_event "status"
        = PyVal.str "finished" ∧
      progress_event_percent (session_state n name (n - 1).toNat) finished_event = 100) ∧
    (∀ k : ℕ, (k : ℤ) < n - 1 →
      progress_event_field (session_state n name k) finished_event "status"
          = PyVal.str "downloading" ∧
      progress_event_percent (session_state n name k) finished_event
          = ((k : ℚ) + 2) / (n : ℚ) * 100) ∧
    (∀ k j : ℕ, k < j → (j : ℤ) < n - 1 →
      progress_event_percent (session_state n name k) finished_event <
        progress_event_percent (session_state n name j) finished_event) := by
  have hstate := session_state_closed n name hn
  have hB : ∀ k : ℕ, (k : ℤ) < n - 1 →
      progress_event_field (session_state n name k) finished_event "status"
          = PyVal.str "downloading" ∧
      progress_event_percent (session_state n name k) finished_event
          = ((k : ℚ) + 2) / (n : ℚ) * 100 := by
    intro k hk
    have hmin : min (k : ℤ) (n - 1) = (k : ℤ) := by omega
    rw [status_finished_event, percent_finished_event, hstate k, hmin,
      handle_finished_res_eq, if_pos hk]
    refine ⟨rfl, ?_⟩
    rw [playlist_progress_eq _ _ _ _ (by omega)]
    have hpf := percent_formula ((k : ℤ) + 1) n (by omega) (by omega) (by omega)
    push_cast at hpf ⊢
    rw [hpf]
    ring
  refine ⟨?_, hB, ?_⟩
  · have hmin : min (((n - 1).toNat : ℤ)) (n - 1) = n - 1 := by omega
    rw [status_finished_event, percent_finished_event, hstate _, hmin,
      handle_finished_res_eq, if_neg (by omega)]
    exact ⟨rfl, rfl⟩
  · intro k j hkj hj
    have hk : (k : ℤ) < n - 1 := by
      have : (k : ℤ) < (j : ℤ) := by exact_mod_cast hkj
      omega
    rw [(hB k hk).2, (hB j hj).2]
    have hn2 : (0 : ℚ) < (n : ℚ) := by exact_mod_cast (by omega : (0 : ℤ) < n)
    have hkj2 : (k : ℚ) + 2 < (j : ℚ) + 2 := by
      have : (k : ℚ) < (j : ℚ) := by exact_mod_cast hkj
      linarith
    exact mul_lt_mul_of_pos_right ((div_lt_div_iff_of_pos_right hn2).mpr hkj2) (by norm_num)

/-- Witness for C4 at N = 3 with name "MyList". -/
theorem collection_completion_law_witness :
    (1 : ℤ) ≤ 3 ∧
    ((progress_event_field (session_state 3 "MyList" ((3 : ℤ) - 1).toNat) finished_event
          "status" = PyVal.str "finished" ∧
      progress_event_percent (session_state 3 "MyList" ((3 : ℤ) - 1).toNat) finished_event
          = 100) ∧
    (∀ k : ℕ, (k : ℤ) < (3 : ℤ) - 1 →
      progress_event_field (session_state 3 "MyList" k) finished_event "status"
          = PyVal.str "downloading" ∧
      progress_event_percent (session_state 3 "MyList" k) finished_event
          = ((k : ℚ) + 2) / ((3 : ℤ) : ℚ) * 100) ∧
    (∀ k j : ℕ, k < j → (j : ℤ) < (3 : ℤ) - 1 →
      progress_event_percent (session_state 3 "MyList" k) finished_event <
        progress_event_percent (session_state 3 "MyList" j) finished_event)) :=
  ⟨by decide, collection_completion_law 3 "MyList" (by decide)⟩

/-- Downloading event at 50 percent, used against a zero-item collection. -/
def zero_items_event : PyDict :=
  [("status", PyVal.str "downloading"), ("_percent_str", PyVal.str "50%")]

/-- Claim C5, counterexample: after `set_playlist_info(0, "X")` a downloading
event at 50 percent reports overall percentage 0, not the file-level 50 —
playlist mode is switched on even with zero items, so the overall percentage
is the short-circuited collection percent, not the file percent. -/
theorem zero_total_items_percentage_not_file :
    progress_event_field (set_playlist_info 0 "X") zero_items_event "file_percent"
        = PyVal.float 50 ∧
    progress_event_field (set_playlist_info 0 "X") zero_items_event "percentage"
        = PyVal.float 0 ∧
    PyVal.float 0 ≠ PyVal.float 50 := ⟨rfl, rfl, by decide⟩

/-- Claim C5 (amended): `set_playlist_info(0, name)` is legal and the
aggregation formula short-circuits to 0 instead of dividing by zero, for
every file percent; but collection mode is switched on, so every
non-finished event reports overall percentage 0 (the collection percent),
not the file-level percentage. -/
theorem zero_total_items_behavior (name : String) (p : ℚ) (d : PyDict)
    (hs : pyEq (dictGetD d "status" (PyVal.str "ready")) (PyVal.str "finished") = false) :
    calculate_playlist_progress (set_playlist_info 0 name) p = 0 ∧
    ∀ r s2, calculate_progress (set_playlist_info 0 name) d = .ok (r, s2) →
      dictGetD r "percentage" PyVal.none = PyVal.float 0 ∧
      dictGetD r "playlist_percent" PyVal.none = PyVal.float 0 := by
  have hz : ∀ q : ℚ, calculate_playlist_progress (set_playlist_info 0 name) q = 0 := by
    intro q
    unfold calculate_playlist_progress set_playlist_info
    simp
  refine ⟨hz p, ?_⟩
  intro r s2 h
  obtain ⟨fp, hs2, hr⟩ := calc_progress_ok_form_not_finished _ d r s2 hs h
  subst hr
  have hm : (set_playlist_info 0 name).is_playlist_mode = true := rfl
  simp [hm, build_result, dictGetD, dictGet, hz]

/-- Witness for the amended C5 on the 50-percent downloading event. -/
theorem zero_total_items_behavior_witness :
    pyEq (dictGetD zero_items_event "status" (PyVal.str "ready")) (PyVal.str "finished")
        = false ∧
    (calculate_playlist_progress (set_playlist_info 0 "X") 37 = 0 ∧
     ∀ r s2, calculate_progress (set_playlist_info 0 "X") zero_items_event = .ok (r, s2) →
       dictGetD r "percentage" PyVal.none = PyVal.float 0 ∧
       dictGetD r "playlist_percent" PyVal.none = PyVal.float 0) :=
  ⟨by decide, zero_total_items_behavior "X" 37 zero_items_event (by decide)⟩

/-- Claim C7, counterexample: the outward event for the empty input dict in
non-collection mode exists (its "status" key is present) but carries no
"isPlaylist" flag — the flag is only attached in collection mode; and an
input whose "speed" key holds None is passed through as a null "speed"
value, not a type-correct numeric one. -/
theorem missing_flag_and_null_passthrough :
    dictHasKey (progress_event_dict reset_state []) "status" = true ∧
    dictHasKey (progress_event_dict reset_state []) "isPlaylist" = false ∧
    dictGetD (progress_event_dict reset_state [("speed", PyVal.none)]) "speed"
        (PyVal.int 0) = PyVal.none := ⟨rfl, rfl, rfl⟩

/-- Claim C7 (amended): every outward event of `calculate_progress` contains
the thirteen base fields (status, file/playlist/overall percents, byte,
speed, eta, filename and string-form fields), with the three percent fields
always float-valued; the `isPlaylist` flag and the collection index, count
and name keys are present in collection mode and all four are absent
otherwise; and each pass-through field carries exactly the input's value (or
the documented default when the key is absent) — so it is null when the
input supplied null, not a guaranteed non-null re-typed value. -/
theorem outward_event_schema (s : ProgressState) (d : PyDict) (r : PyDict)
    (s2 : ProgressState) (h : calculate_progress s d = .ok (r, s2)) :
    (dictHasKey r "status" = true ∧ dictHasKey r "file_percent" = true ∧
     dictHasKey r "playlist_percent" = true ∧ dictHasKey r "percentage" = true ∧
     dictHasKey r "downloaded_bytes" = true ∧ dictHasKey r "total_bytes" = true ∧
     dictHasKey r "speed" = true ∧ dictHasKey r "eta" = true ∧
     dictHasKey r "filename" = true ∧ dictHasKey r "currentFile" = true ∧
     dictHasKey r "_percent_str" = true ∧ dictHasKey r "_speed_str" = true ∧
     dictHasKey r "_eta_str" = true) ∧
    ((∃ q, dictGetD r "file_percent" PyVal.none = PyVal.float q) ∧
     (∃ q, dictGetD r "playlist_percent" PyVal.none = PyVal.float q) ∧
     (∃ q, dictGetD r "percentage" PyVal.none = PyVal.float q)) ∧
    (s.is_playlist_mode = true →
      dictHasKey r "isPlaylist" = true ∧ dictHasKey r "playlist_index" = true ∧
      dictHasKey r "playlist_count" = true ∧ dictHasKey r "playlist_name" = true) ∧
    (s.is_playlist_mode = false →
      dictHasKey r "isPlaylist" = false ∧ dictHasKey r "playlist_index" = false ∧
      dictHasKey r "playlist_count" = false ∧ dictHasKey r "playlist_name" = false) ∧
    (dictGetD r "downloaded_bytes" PyVal.none = dictGetD d "downloaded_bytes" (PyVal.int 0) ∧
     dictGetD r "total_bytes" PyVal.none = dictGetD d "total_bytes" (PyVal.int 0) ∧
     dictGetD r "speed" PyVal.none = dictGetD d "speed" (PyVal.int 0) ∧
     dictGetD r "eta" PyVal.none = dictGetD d "eta" (PyVal.int 0) ∧
     dictGetD r "filename" PyVal.none = dictGetD d "filename" (PyVal.str "") ∧
     dictGetD r "currentFile" PyVal.none = dictGetD d "filename" (PyVal.str "") ∧
     dictGetD r "_percent_str" PyVal.none = dictGetD d "_percent_str" (PyVal.str "") ∧
     dictGetD r "_speed_str" PyVal.none = dictGetD d "_speed_str" (PyVal.str "") ∧
     dictGetD r "_eta_str" PyVal.none = dictGetD d "_eta_str" (PyVal.str "")) := by
  obtain ⟨res, hmode, hr⟩ := calc_progress_ok_form s d r s2 h
  subst hr
  cases hm : s.is_playlist_mode with
  | false =>
      have hm2 : s2.is_playlist_mode = false := by rw [hmode, hm]
      simp only [hm2, Bool.false_eq_true, if_false]
      refine ⟨⟨rfl, rfl, rfl, rfl, rfl, rfl, rfl, rfl, rfl, rfl, rfl, rfl, rfl⟩,
        ⟨⟨res.file_percent, rfl⟩, ⟨res.playlist_percent, rfl⟩, ⟨res.percentage, rfl⟩⟩,
        ?_, fun _ => ⟨rfl, rfl, rfl, rfl⟩,
        ⟨rfl, rfl, rfl, rfl, rfl, rfl, rfl, rfl, rfl⟩⟩
      intro hc
      exact hc.elim
  | true =>
      have hm2 : s2.is_playlist_mode = true := by rw [hmode, hm]
      simp only [hm2, if_true]
      have hpl : get_playlist_info s2 =
          [("playlist_index", .int s2.current_index),
           ("playlist_count", .int s2.total_songs),
           ("playlist_name", .str s2.playlist_name),
           ("isPlaylist", .bool true)] := by
        unfold get_playlist_info
        simp [hm2]
      rw [hpl]
      refine ⟨⟨rfl, rfl, rfl, rfl, rfl, rfl, rfl, rfl, rfl, rfl, rfl, rfl, rfl⟩,
        ⟨⟨res.file_percent, rfl⟩, ⟨res.playlist_percent, rfl⟩, ⟨res.percentage, rfl⟩⟩,
        fun _ => ⟨rfl, rfl, rfl, rfl⟩, ?_,
        ⟨rfl, rfl, rfl, rfl, rfl, rfl, rfl, rfl, rfl⟩⟩
      intro hc
      exact absurd hc (by simp)

/-- Witness for the amended C7 on the empty input dict in cleared state. -/
theorem outward_event_schema_witness :
    calculate_progress reset_state [] = .ok (progress_event_dict reset_state [], reset_state) ∧
    dictHasKey (progress_event_dict reset_state []) "percentage" = true ∧
    dictHasKey (progress_event_dict reset_state []) "isPlaylist" = false ∧
    dictHasKey (progress_event_dict reset_state []) "playlist_index" = false ∧
    dictGetD (progress_event_dict reset_state []) "speed" PyVal.none
      = dictGetD ([] : PyDict) "speed" (PyVal.int 0) :=
  ⟨rfl,
    (outward_event_schema reset_state [] (progress_event_dict reset_state [])
      reset_state rfl).1.2.2.2.1,
    ((outward_event_schema reset_state [] (progress_event_dict reset_state [])
      reset_state rfl).2.2.2.1 rfl).1,
    ((outward_event_schema reset_state [] (progress_event_dict reset_state [])
      reset_state rfl).2.2.2.1 rfl).2.1,
    (outward_event_schema reset_state [] (progress_event_dict reset_state [])
      reset_state rfl).2.2.2.2.2.2.1⟩
